import Mathlib

/-!
Shallow embedding of `astrbot_websitetool` (src/main.py), a chat-command
dispatcher that forwards website-diagnostic commands to a remote HTTP API
and formats the JSON response envelopes into chat replies.

Modelling conventions:
* JSON values (what `response.json()` yields) are the inductive `Json`;
  a JSON object is an ordered association list, matching the insertion
  order of Python dicts.
* Fallible Python code is `Except String α`; the error string names the
  Python exception class that would be raised (`"KeyError"`, ...).
* The HTTP transport is abstracted as a function `String → FetchOutcome`
  from the request URL to the outcome of `session.get(...)`:
  `success body` = a 2xx response whose body parsed to `body`;
  `clientError`  = an `aiohttp.ClientError` (connection failure, or a
                   non-2xx status turned into an error by
                   `response.raise_for_status()`);
  `otherError`   = any other exception during fetch or JSON parsing
                   (caught by the `except Exception` arm).
* Whitespace is the ASCII whitespace class; `str.split` / `str.strip`
  are modelled on `List Char` by `pySplit` / `pySplit1` / `pystrip`.
-/

/-- A JSON value, as returned by `response.json()`.  Objects are ordered
association lists (Python dicts preserve insertion order). -/
inductive Json where
  | null : Json
  | bool : Bool → Json
  | num : Int → Json
  | str : String → Json
  | arr : List Json → Json
  | obj : List (String × Json) → Json

mutual
/-- Python `str()` of a value (top level: strings unquoted). -/
def pyStr : Json → String
  | Json.null => "None"
  | Json.bool b => if b then "True" else "False"
  | Json.num n => toString n
  | Json.str s => s
  | Json.arr xs => "[" ++ pyReprList xs ++ "]"
  | Json.obj kvs => "\x7b" ++ pyReprPairs kvs ++ "\x7d"

/-- Python `repr()` of a value (strings quoted), used inside containers. -/
def pyRepr : Json → String
  | Json.null => "None"
  | Json.bool b => if b then "True" else "False"
  | Json.num n => toString n
  | Json.str s => "'" ++ s ++ "'"
  | Json.arr xs => "[" ++ pyReprList xs ++ "]"
  | Json.obj kvs => "\x7b" ++ pyReprPairs kvs ++ "\x7d"

def pyReprList : List Json → String
  | [] => ""
  | [x] => pyRepr x
  | x :: xs => pyRepr x ++ ", " ++ pyReprList xs

def pyReprPairs : List (String × Json) → String
  | [] => ""
  | [kv] => "'" ++ kv.1 ++ "': " ++ pyRepr kv.2
  | kv :: kvs => "'" ++ kv.1 ++ "': " ++ pyRepr kv.2 ++ ", " ++ pyReprPairs kvs
end

/-- Python truthiness of a JSON value (`if status:`). -/
def pyTruthy : Json → Bool
  | Json.null => false
  | Json.bool b => b
  | Json.num n => n != 0
  | Json.str s => s != ""
  | Json.arr xs => !xs.isEmpty
  | Json.obj kvs => !kvs.isEmpty

/-- Is the value a Python dict (JSON object)? -/
def isDict : Json → Bool
  | Json.obj _ => true
  | _ => false

/-- Python `d.get(k)` on a dict represented as an ordered association list. -/
def dictGet (kvs : List (String × Json)) (k : String) : Option Json :=
  (kvs.find? (fun kv => kv.1 == k)).map Prod.snd

/-- Python `d.get(k, default)`. -/
def dictGetD (kvs : List (String × Json)) (k : String) (d : Json) : Json :=
  match dictGet kvs k with
  | some v => v
  | none => d

/-- Subscription `j[k]` with a string key: `KeyError` when the key is
missing, `TypeError` when the value is not a dict. -/
def jindex (j : Json) (k : String) : Except String Json :=
  match j with
  | Json.obj kvs =>
      match dictGet kvs k with
      | some v => Except.ok v
      | none => Except.error "KeyError"
  | _ => Except.error "TypeError"

/-- Outcome of one `session.get(url)` call, abstracting the transport. -/
inductive FetchOutcome where
  | success : Json → FetchOutcome
  | clientError : FetchOutcome
  | otherError : FetchOutcome

/-- Embeds `safe_fetch_json` (src/main.py:22-33): returns the parsed body on
success and maps the two exception classes to synthetic envelopes. -/
def safe_fetch_json : FetchOutcome → Json
  | FetchOutcome.success body => body
  | FetchOutcome.clientError =>
      Json.obj [("code", Json.num 500), ("msg", Json.str "服务暂时不可用")]
  | FetchOutcome.otherError =>
      Json.obj [("code", Json.num 500), ("msg", Json.str "内部服务器错误")]

/-! ## Python string splitting (ASCII whitespace) -/

/-- ASCII whitespace, the character class of `str.split()` / `str.strip()`. -/
def isSpace (c : Char) : Bool :=
  c = ' ' || c = '\t' || c = '\n' || c = '\r' || c = '\x0b' || c = '\x0c'

/-- Python `s.split()`: tokens separated by runs of whitespace, edge whitespace
ignored, never producing empty tokens. -/
def pySplit : List Char → List (List Char)
  | [] => []
  | c :: cs =>
    if isSpace c then pySplit cs
    else
      match cs with
      | [] => [[c]]
      | c2 :: _ =>
        if isSpace c2 then [c] :: pySplit cs
        else
          match pySplit cs with
          | [] => [[c]]
          | t :: ts => (c :: t) :: ts

/-- Python `s.split(maxsplit=1)`: leading whitespace skipped; first token, then
the remainder with the separating whitespace run removed (the remainder
keeps any internal and trailing whitespace); at most two parts. -/
def pySplit1 (s : List Char) : List (List Char) :=
  let s1 := s.dropWhile isSpace
  if s1.isEmpty then []
  else
    let tok := s1.takeWhile (fun c => !isSpace c)
    let rest := (s1.dropWhile (fun c => !isSpace c)).dropWhile isSpace
    if rest.isEmpty then [tok] else [tok, rest]

/-- Python `s.strip()`: remove leading and trailing whitespace. -/
def pystrip (s : List Char) : List Char :=
  ((s.dropWhile isSpace).reverse.dropWhile isSpace).reverse

/-- Python `s.strip()` on `String`. -/
def pystripStr (s : String) : String :=
  (pystrip s.toList).asString

/-- Python `sep.join(xs)` for strings. -/
def pyJoin (sep : String) : List String → String
  | [] => ""
  | [x] => x
  | x :: xs => x ++ sep ++ pyJoin sep xs

/-! ## The command-argument parser (src/main.py:35-53) -/

/-- One component of an incoming chat message.  `other` stands for any
non-`Plain` component (image, mention, ...). -/
inductive MessageComponent where
  | Plain : String → MessageComponent
  | other : MessageComponent
deriving DecidableEq

/-- Is the component a `Plain` text component? -/
def isPlainComp : MessageComponent → Bool
  | MessageComponent.Plain _ => true
  | MessageComponent.other => false

/-- The list comprehension `[c.text.strip() for c in event.get_messages()
if isinstance(c, Plain)]`. -/
def plainTexts (comps : List MessageComponent) : List String :=
  comps.filterMap fun c =>
    match c with
    | MessageComponent.Plain t => some (pystripStr t)
    | MessageComponent.other => none

/-- The tail of `parse_command_args` after `full_text` has been built:
`parts = full_text.split(maxsplit=1)`, the `min_args` guard, and
`parts[1].split()` (an `IndexError` when `parts[1]` does not exist,
which requires `min_args = 0`). -/
def parseFull (full_text : List Char) (min_args : Nat) : Except String (List (List Char)) :=
  let parts := pySplit1 full_text
  if parts.length < min_args + 1 then Except.ok []
  else
    match parts.get? 1 with
    | some r => Except.ok (pySplit r)
    | none => Except.error "IndexError"

/-- Embeds `parse_command_args` (src/main.py:35-53): strip each `Plain`
component, return `[]` if there are none, join the stripped texts with no
separator, split off the command keyword, and tokenize the remainder. -/
def parse_command_args (comps : List MessageComponent) (min_args : Nat) :
    Except String (List String) :=
  let text_parts := plainTexts comps
  if text_parts.isEmpty then Except.ok []
  else
    let full_text := String.join text_parts
    (parseFull full_text.toList min_args).map (List.map List.asString)

/-! ## Request building and dispatch (src/main.py:55-71) -/

def API_BASE_URL : String := "https://v2.xxapi.cn/api"

/-- The reply delivered back to the chat: `plain_result` text, or the
`chain_result` of the screenshot command (caption plus image source). -/
inductive Reply where
  | text : String → Reply
  | chain : String → Json → Reply

/-- URL construction in `send_api_result` (src/main.py:63-64):
`f"{API_BASE_URL}/{endpoint}" + "?" + "&".join([f"{k}={v}" ...])`.
Values are interpolated with `str()`, with no percent-encoding. -/
def build_url (endpoint : String) (params : List (String × Json)) : String :=
  API_BASE_URL ++ "/" ++ endpoint ++ "?" ++
    pyJoin "&" (params.map fun kv => kv.1 ++ "=" ++ pyStr kv.2)

/-- The test `data.get("code") == 200` (a non-dict would raise before this test). -/
def isCode200 (kvs : List (String × Json)) : Bool :=
  match dictGet kvs "code" with
  | some (Json.num n) => n == 200
  | _ => false

/-- Embeds `send_api_result` (src/main.py:55-71): build the URL, fetch, then
either hand the whole envelope to the success handler (`code == 200`) or
render the uniform error reply `"\n错误：" + data.get('msg', '未知错误')`.
`data.get` on a non-dict raises `AttributeError`. -/
def send_api_result (fetch : String → FetchOutcome) (endpoint : String)
    (params : List (String × Json))
    (success_handler : Json → Except String Reply) : Except String Reply :=
  let url := build_url endpoint params
  let data := safe_fetch_json (fetch url)
  match data with
  | Json.obj kvs =>
      if isCode200 kvs then success_handler data
      else Except.ok (Reply.text ("\n错误：" ++ pyStr (dictGetD kvs "msg" (Json.str "未知错误"))))
  | _ => Except.error "AttributeError"

/-! ## Per-endpoint success handlers (the lambdas passed to
`send_api_result`) -/

/-- tcping success lambda (src/main.py:115-117). -/
def tcping_success (data : Json) : Except String Reply := do
  let msg ← jindex data "msg"
  let d1 ← jindex data "data"
  let address ← jindex d1 "address"
  let d2 ← jindex data "data"
  let ping ← jindex d2 "ping"
  let d3 ← jindex data "data"
  let port ← jindex d3 "port"
  return Reply.text ("\n状态：" ++ pyStr msg ++ "\n测试地址：" ++ pyStr address ++
    "\n延迟：" ++ pyStr ping ++ "\n端口：" ++ pyStr port)

/-- ping success lambda (src/main.py:131-133). -/
def ping_success (data : Json) : Except String Reply := do
  let msg ← jindex data "msg"
  let d1 ← jindex data "data"
  let time ← jindex d1 "time"
  let d2 ← jindex data "data"
  let server ← jindex d2 "server"
  return Reply.text ("\n状态：" ++ pyStr msg ++ "\n延迟：" ++ pyStr time ++
    "\nIP：" ++ pyStr server)

/-- siteno (speed) success lambda (src/main.py:147-149). -/
def speed_success (data : Json) : Except String Reply := do
  let msg ← jindex data "msg"
  let d ← jindex data "data"
  return Reply.text ("\n状态：" ++ pyStr msg ++ "\n延迟：" ++ pyStr d ++ "ms")

/-- Python slicing `j[:n]`: defined on lists and strings, `TypeError`
otherwise. -/
def pySliceTo (n : Nat) (j : Json) : Except String Json :=
  match j with
  | Json.arr xs => Except.ok (Json.arr (xs.take n))
  | Json.str s => Except.ok (Json.str (s.toList.take n).asString)
  | _ => Except.error "TypeError"

/-- Extract the strings of a joined iterable; any non-string element is a
`TypeError` (as in `str.join`). -/
def extractStrs : List Json → Except String (List String)
  | [] => Except.ok []
  | Json.str s :: xs => (extractStrs xs).map (fun rest => s :: rest)
  | _ :: _ => Except.error "TypeError"

/-- Python `sep.join(j)`: every joined element must be a string; a string is
itself iterable, yielding its characters. -/
def pyJoinJson (sep : String) (j : Json) : Except String String :=
  match j with
  | Json.arr xs => (extractStrs xs).map (pyJoin sep)
  | Json.str s => Except.ok (pyJoin sep (s.toList.map fun c => String.mk [c]))
  | _ => Except.error "TypeError"

/-- whois success lambda (src/main.py:163-169), in the evaluation order of
the f-string fields. -/
def whois_success (data : Json) : Except String Reply := do
  let d1 ← jindex data "data"
  let domainName ← jindex d1 "Domain Name"
  let d2 ← jindex data "data"
  let registrar ← jindex d2 "Sponsoring Registrar"
  let d3 ← jindex data "data"
  let registrant ← jindex d3 "Registrant"
  let d4 ← jindex data "data"
  let dnsValue ← jindex d4 "DNS Serve"
  let dnsSliced ← pySliceTo 2 dnsValue
  let dns ← pyJoinJson ", " dnsSliced
  let d5 ← jindex data "data"
  let regTime ← jindex d5 "Registration Time"
  let d6 ← jindex data "data"
  let expTime ← jindex d6 "Expiration Time"
  return Reply.text ("\n域名：" ++ pyStr domainName ++ "\n注册商：" ++ pyStr registrar ++
    "\n注册人：" ++ pyStr registrant ++ "\nDNS：" ++ dns ++
    "\n有效期：" ++ pyStr regTime ++ " 至 " ++ pyStr expTime)

/-- Inner `truncate` of `_format_port_scan` (src/main.py:194-195):
`ports[:20] + ["..."] if len(ports) > 20 else ports`. -/
def truncate (ports : List String) : List String :=
  if 20 < ports.length then ports.take 20 ++ ["..."] else ports

/-- Python `x or default` on strings: the empty string is falsy. -/
def pyOrStr (s d : String) : String :=
  if s = "" then d else s

/-- The rendering of one status list inside the f-string of
`_format_port_scan`: `' | '.join(truncate(ports)) or '无'` (the source
inlines this expression once per list). -/
def render_port_list (ports : List String) : String :=
  pyOrStr (pyJoin " | " (truncate ports)) "无"

/-- Embeds `_format_port_scan` (src/main.py:188-198). -/
def format_port_scan (port_data : List (String × Json)) : String :=
  let open_ports := (port_data.filter fun kv => pyTruthy kv.2).map Prod.fst
  let closed_ports := (port_data.filter fun kv => !pyTruthy kv.2).map Prod.fst
  "开放端口：" ++ render_port_list open_ports ++
    "\n未开放端口：" ++ render_port_list closed_ports

/-- port success lambda (src/main.py:183-185): `_format_port_scan(data['data'])`;
`.items()` on a non-dict raises `AttributeError`. -/
def portscan_success (data : Json) : Except String Reply := do
  let d ← jindex data "data"
  match d with
  | Json.obj kvs => return Reply.text (format_port_scan kvs)
  | _ => Except.error "AttributeError"

/-- site (screenshot) success lambda (src/main.py:211-214):
`chain_result([Plain(f"截图成功：{msg}\n"), Image.fromURL(data['data'])])`. -/
def screenshot_success (data : Json) : Except String Reply := do
  let msg ← jindex data "msg"
  let url ← jindex data "data"
  return Reply.chain ("截图成功：" ++ pyStr msg ++ "\n") url

/-! ## Command handlers (src/main.py:96-215) -/

/-- Python `int(s)` on a whitespace-free token: an optional sign followed
by one or more decimal digits (digit-grouping underscores not modelled;
no caller can produce them). -/
def pyIntParse (s : String) : Option Int :=
  let digitsVal : List Char → Option Nat := fun ds =>
    if ds.isEmpty then none
    else if ds.all Char.isDigit then
      some (ds.foldl (fun acc c => 10 * acc + (c.toNat - '0'.toNat)) 0)
    else none
  match s.toList with
  | '+' :: ds => (digitsVal ds).map Int.ofNat
  | '-' :: ds => (digitsVal ds).map fun n => -(n : Int)
  | ds => (digitsVal ds).map Int.ofNat

/-- Embeds `check_tcping` (src/main.py:96-118). -/
def check_tcping (comps : List MessageComponent) (fetch : String → FetchOutcome) :
    Except String Reply :=
  match parse_command_args comps 1 with
  | Except.error e => Except.error e
  | Except.ok args =>
    if args.isEmpty then
      Except.ok (Reply.text "传入需要tcping的ip或者域名，不需要加http或https!\n示例: /tcping bing.com\n示例: /tcping bing.com 443")
    else
      let host := args.headD ""
      let port := if 1 < args.length then args.getD 1 "80" else "80"
      match pyIntParse port with
      | none => Except.ok (Reply.text "端口号必须是数字!\n示例: /tcping bing.com 443")
      | some p =>
          send_api_result fetch "tcping"
            [("address", Json.str host), ("port", Json.num p)] tcping_success

/-- Embeds `check_ping` (src/main.py:120-134). -/
def check_ping (comps : List MessageComponent) (fetch : String → FetchOutcome) :
    Except String Reply :=
  match parse_command_args comps 1 with
  | Except.error e => Except.error e
  | Except.ok args =>
    if args.isEmpty then
      Except.ok (Reply.text "请输入要测试的域名!\n示例: /ping bing.com")
    else
      send_api_result fetch "ping" [("url", Json.str (args.headD ""))] ping_success

/-- Embeds `check_latency` (siteno, src/main.py:136-150). -/
def check_latency (comps : List MessageComponent) (fetch : String → FetchOutcome) :
    Except String Reply :=
  match parse_command_args comps 1 with
  | Except.error e => Except.error e
  | Except.ok args =>
    if args.isEmpty then
      Except.ok (Reply.text "请输入要测试的网址，包含http(s)等！\n示例: /siteno https://www.bing.com")
    else
      send_api_result fetch "speed" [("url", Json.str (args.headD ""))] speed_success

/-- Embeds `query_whois` (src/main.py:152-170). -/
def query_whois (comps : List MessageComponent) (fetch : String → FetchOutcome) :
    Except String Reply :=
  match parse_command_args comps 1 with
  | Except.error e => Except.error e
  | Except.ok args =>
    if args.isEmpty then
      Except.ok (Reply.text "请输入要查询的域名!\n示例: /whois bing.com")
    else
      send_api_result fetch "whois" [("domain", Json.str (args.headD ""))] whois_success

/-- Embeds `scan_ports` (src/main.py:172-186). -/
def scan_ports (comps : List MessageComponent) (fetch : String → FetchOutcome) :
    Except String Reply :=
  match parse_command_args comps 1 with
  | Except.error e => Except.error e
  | Except.ok args =>
    if args.isEmpty then
      Except.ok (Reply.text "请输入IP地址!\n示例: /port 8.8.8.8")
    else
      send_api_result fetch "portscan" [("address", Json.str (args.headD ""))] portscan_success

/-- Embeds `capture_site` (src/main.py:200-215). -/
def capture_site (comps : List MessageComponent) (fetch : String → FetchOutcome) :
    Except String Reply :=
  match parse_command_args comps 1 with
  | Except.error e => Except.error e
  | Except.ok args =>
    if args.isEmpty then
      Except.ok (Reply.text "请输入网址,包含http(s)等!\n示例: /site https://www.bing.com")
    else
      send_api_result fetch "screenshot" [("url", Json.str (args.headD ""))] screenshot_success

/-- The content of one whitespace-free, non-empty argument token. -/
def tokenStr (s : String) : Prop :=
  s.toList ≠ [] ∧ ∀ c ∈ s.toList, isSpace c = false

/-- Did the handler terminate in a plain text reply (no exception)? -/
def isTextReply : Except String Reply → Bool
  | Except.ok (Reply.text _) => true
  | _ => false

/-- Is the fetched value a dict envelope whose code is not 200? -/
def isErrorEnvelope : Json → Bool
  | Json.obj kvs => !isCode200 kvs
  | _ => false

/-! ## String bridging lemmas -/

theorem toList_append (a b : String) : (a ++ b).toList = a.toList ++ b.toList := rfl

theorem asString_toList (s : String) : s.toList.asString = s := rfl

theorem toList_asString (l : List Char) : l.asString.toList = l := rfl

theorem toList_eq_nil_iff (s : String) : s.toList = [] ↔ s = "" := by
  constructor
  · intro h
    cases s with
    | mk d =>
      simp only [String.toList] at h
      subst h
      rfl
  · intro h
    subst h
    rfl

theorem str_append_ne_empty_right (a b : String) (hb : b ≠ "") : a ++ b ≠ "" := by
  intro h
  have h2 : (a ++ b).toList = [] := by rw [h]; rfl
  rw [toList_append, List.append_eq_nil] at h2
  exact hb ((toList_eq_nil_iff b).mp h2.2)

/-! ## Lemmas about `pySplit` and `pySplit1` -/

theorem dropWhile_of_all_neg {α : Type} {p : α → Bool} :
    ∀ (l : List α), (∀ a ∈ l, p a = false) → l.dropWhile p = l
  | [], _ => rfl
  | a :: as, h => List.dropWhile_cons_of_neg (by simp [h a (List.mem_cons_self a as)])

theorem takeWhile_append_neg {α : Type} {p : α → Bool} (r : List α)
    (h : ∀ a ∈ r, p a = false) : ∀ (l : List α), (l ++ r).takeWhile p = l.takeWhile p := by
  intro l
  induction l with
  | nil =>
    cases r with
    | nil => rfl
    | cons a as =>
      simp [List.takeWhile_cons_of_neg (by simp [h a (List.mem_cons_self a as)] : ¬ p a = true)]
  | cons x xs ih =>
    rw [List.cons_append, List.takeWhile_cons, List.takeWhile_cons]
    cases hx : p x <;> simp [ih]

theorem dropWhile_append_neg {α : Type} {p : α → Bool} (r : List α)
    (h : ∀ a ∈ r, p a = false) : ∀ (l : List α), (l ++ r).dropWhile p = l.dropWhile p ++ r := by
  intro l
  induction l with
  | nil => simp [dropWhile_of_all_neg r h]
  | cons x xs ih =>
    rw [List.cons_append, List.dropWhile_cons, List.dropWhile_cons]
    cases hx : p x <;> simp [ih]

theorem pySplit_space_cons {c : Char} (s : List Char) (h : isSpace c = true) :
    pySplit (c :: s) = pySplit s := by
  simp [pySplit, h]

theorem pySplit_eq_cons :
    ∀ (s : List Char) (c : Char), isSpace c = false →
      pySplit (c :: s) =
        (c :: s.takeWhile (fun x => !isSpace x)) ::
          pySplit (s.dropWhile (fun x => !isSpace x)) := by
  intro s
  induction s with
  | nil => intro c h; simp [pySplit, h]
  | cons c2 s2 ih =>
    intro c h
    have hstep : pySplit (c :: c2 :: s2) =
        if isSpace c then pySplit (c2 :: s2)
        else if isSpace c2 then [c] :: pySplit (c2 :: s2)
        else match pySplit (c2 :: s2) with
          | [] => [[c]]
          | t :: ts => (c :: t) :: ts := rfl
    by_cases h2 : isSpace c2 = true
    · have ht : List.takeWhile (fun x => !isSpace x) (c2 :: s2) = [] :=
        List.takeWhile_cons_of_neg (by simp [h2])
      have hd : List.dropWhile (fun x => !isSpace x) (c2 :: s2) = c2 :: s2 :=
        List.dropWhile_cons_of_neg (by simp [h2])
      rw [hstep, if_neg (by simp [h]), if_pos h2, ht, hd]
    · have h2f : isSpace c2 = false := by simpa using h2
      have ht : List.takeWhile (fun x => !isSpace x) (c2 :: s2) =
          c2 :: List.takeWhile (fun x => !isSpace x) s2 :=
        List.takeWhile_cons_of_pos (by simp [h2f])
      have hd : List.dropWhile (fun x => !isSpace x) (c2 :: s2) =
          List.dropWhile (fun x => !isSpace x) s2 :=
        List.dropWhile_cons_of_pos (by simp [h2f])
      rw [hstep, if_neg (by simp [h]), if_neg (by simp [h2f]), ih c2 h2f, ht, hd]

theorem takeWhile_of_all_pos {α : Type} {p : α → Bool} :
    ∀ (l : List α), (∀ a ∈ l, p a = true) → l.takeWhile p = l := by
  intro l h
  exact List.takeWhile_eq_self_iff.mpr h

theorem dropWhile_of_all_pos {α : Type} {p : α → Bool} :
    ∀ (l : List α), (∀ a ∈ l, p a = true) → l.dropWhile p = []
  | [], _ => rfl
  | a :: as, h => by
    rw [List.dropWhile_cons_of_pos (h a (List.mem_cons_self a as))]
    exact dropWhile_of_all_pos as fun x hx => h x (List.mem_cons_of_mem a hx)

theorem pySplit_nil_of_space :
    ∀ (s : List Char), (∀ c ∈ s, isSpace c = true) → pySplit s = []
  | [], _ => rfl
  | c :: cs, h => by
    rw [pySplit_space_cons cs (h c (List.mem_cons_self c cs))]
    exact pySplit_nil_of_space cs fun x hx => h x (List.mem_cons_of_mem c hx)

theorem pySplit_dropWhile_space (s : List Char) :
    pySplit (s.dropWhile isSpace) = pySplit s := by
  induction s with
  | nil => rfl
  | cons c cs ih =>
    by_cases h : isSpace c = true
    · rw [List.dropWhile_cons_of_pos h, ih, pySplit_space_cons cs h]
    · rw [List.dropWhile_cons_of_neg h]

theorem dropWhile_head_false {α : Type} {p : α → Bool} :
    ∀ (l : List α) (a : α) (as : List α), l.dropWhile p = a :: as → p a = false := by
  intro l
  induction l with
  | nil => intro a as h; simp at h
  | cons x xs ih =>
    intro a as h
    by_cases hx : p x = true
    · rw [List.dropWhile_cons_of_pos hx] at h
      exact ih a as h
    · rw [List.dropWhile_cons_of_neg hx] at h
      cases h
      simpa using hx

theorem pySplit_token (t : List Char) (h0 : t ≠ [])
    (h : ∀ c ∈ t, isSpace c = false) : pySplit t = [t] := by
  match t, h0 with
  | c :: cs, _ =>
    have hc := h c (List.mem_cons_self c cs)
    have hall : ∀ x ∈ cs, (fun x => !isSpace x) x = true :=
      fun x hx => by simp [h x (List.mem_cons_of_mem c hx)]
    rw [pySplit_eq_cons cs c hc, takeWhile_of_all_pos cs hall,
      dropWhile_of_all_pos cs hall]
    rfl

theorem pySplit_token_space (t : List Char) (c : Char) (r : List Char)
    (h0 : t ≠ []) (ht : ∀ x ∈ t, isSpace x = false) (hc : isSpace c = true) :
    pySplit (t ++ c :: r) = t :: pySplit (c :: r) := by
  match t, h0 with
  | a :: t', _ =>
    have ha := ht a (List.mem_cons_self a t')
    have hall : ∀ x ∈ t', (fun x => !isSpace x) x = true :=
      fun x hx => by simp [ht x (List.mem_cons_of_mem a hx)]
    rw [List.cons_append, pySplit_eq_cons _ a ha,
      List.takeWhile_append_of_pos hall, List.dropWhile_append_of_pos hall,
      List.takeWhile_cons_of_neg (by simp [hc]),
      List.dropWhile_cons_of_neg (by simp [hc]), List.append_nil]

theorem pySplit_append_spaces (sp : List Char) (hsp : ∀ c ∈ sp, isSpace c = true) :
    ∀ (l : List Char), pySplit (l ++ sp) = pySplit l := by
  suffices h : ∀ (n : Nat) (l : List Char), l.length ≤ n → pySplit (l ++ sp) = pySplit l from
    fun l => h l.length l le_rfl
  intro n
  induction n with
  | zero =>
    intro l hl
    have : l = [] := List.eq_nil_of_length_eq_zero (Nat.le_zero.mp hl)
    subst this
    simpa using pySplit_nil_of_space sp hsp
  | succ n ih =>
    intro l hl
    match l with
    | [] => simpa using pySplit_nil_of_space sp hsp
    | c :: cs =>
      by_cases hc : isSpace c = true
      · rw [List.cons_append, pySplit_space_cons _ hc, pySplit_space_cons _ hc]
        exact ih cs (by simpa using Nat.le_of_succ_le_succ hl)
      · have hcf : isSpace c = false := by simpa using hc
        have hneg : ∀ x ∈ sp, (fun x => !isSpace x) x = false :=
          fun x hx => by simp [hsp x hx]
        rw [List.cons_append, pySplit_eq_cons _ c hcf, pySplit_eq_cons _ c hcf,
          takeWhile_append_neg sp hneg, dropWhile_append_neg sp hneg]
        have hlen : (cs.dropWhile (fun x => !isSpace x)).length ≤ n := by
          have h1 := congrArg List.length
            (List.takeWhile_append_dropWhile (fun x => !isSpace x) cs)
          simp only [List.length_append] at h1
          have h2 : cs.length ≤ n := by simpa using Nat.le_of_succ_le_succ hl
          omega
        rw [ih _ hlen]

theorem pySplit_pystrip (s : List Char) : pySplit (pystrip s) = pySplit s := by
  unfold pystrip
  have hdecomp : s.dropWhile isSpace =
      ((s.dropWhile isSpace).reverse.dropWhile isSpace).reverse ++
        ((s.dropWhile isSpace).reverse.takeWhile isSpace).reverse := by
    conv_lhs => rw [← List.reverse_reverse (s.dropWhile isSpace),
      ← List.takeWhile_append_dropWhile isSpace (s.dropWhile isSpace).reverse]
    rw [List.reverse_append]
  have hsp : ∀ c ∈ ((s.dropWhile isSpace).reverse.takeWhile isSpace).reverse,
      isSpace c = true := by
    intro c hcmem
    exact List.mem_takeWhile_imp (List.mem_reverse.mp hcmem)
  calc pySplit ((s.dropWhile isSpace).reverse.dropWhile isSpace).reverse
      = pySplit (((s.dropWhile isSpace).reverse.dropWhile isSpace).reverse ++
          ((s.dropWhile isSpace).reverse.takeWhile isSpace).reverse) :=
        (pySplit_append_spaces _ hsp _).symm
    _ = pySplit (s.dropWhile isSpace) := by rw [← hdecomp]
    _ = pySplit s := pySplit_dropWhile_space s

theorem pySplit_sound :
    ∀ (s : List Char), ∀ t ∈ pySplit s, t ≠ [] ∧ ∀ c ∈ t, isSpace c = false := by
  suffices h : ∀ (n : Nat) (s : List Char), s.length ≤ n →
      ∀ t ∈ pySplit s, t ≠ [] ∧ ∀ c ∈ t, isSpace c = false from
    fun s => h s.length s le_rfl
  intro n
  induction n with
  | zero =>
    intro s hs
    have : s = [] := List.eq_nil_of_length_eq_zero (Nat.le_zero.mp hs)
    subst this
    intro t ht
    simp [pySplit] at ht
  | succ n ih =>
    intro s hs
    match s with
    | [] => intro t ht; simp [pySplit] at ht
    | c :: cs =>
      by_cases hc : isSpace c = true
      · rw [pySplit_space_cons cs hc]
        exact ih cs (by simpa using Nat.le_of_succ_le_succ hs)
      · have hcf : isSpace c = false := by simpa using hc
        rw [pySplit_eq_cons cs c hcf]
        intro t ht
        rcases List.mem_cons.mp ht with h1 | h2
        · subst h1
          refine ⟨by simp, ?_⟩
          intro x hx
          rcases List.mem_cons.mp hx with h3 | h4
          · subst h3; exact hcf
          · have := List.mem_takeWhile_imp h4
            simpa using this
        · have hlen : (cs.dropWhile (fun x => !isSpace x)).length ≤ n := by
            have h1 := congrArg List.length
              (List.takeWhile_append_dropWhile (fun x => !isSpace x) cs)
            simp only [List.length_append] at h1
            have h2 : cs.length ≤ n := by simpa using Nat.le_of_succ_le_succ hs
            omega
          exact ih _ hlen t h2

/-! ## Specification of the parser -/

theorem pySplit1_length_le (l : List Char) : (pySplit1 l).length ≤ 2 := by
  simp only [pySplit1]
  split
  · simp
  · split <;> simp

theorem parseFull_one (l : List Char) : parseFull l 1 = Except.ok ((pySplit l).tail) := by
  cases hd : l.dropWhile isSpace with
  | nil =>
    have hsplit : pySplit l = [] := by
      rw [← pySplit_dropWhile_space, hd]
      rfl
    simp [parseFull, pySplit1, hd, hsplit]
  | cons c cs =>
    have hc : isSpace c = false := dropWhile_head_false l c cs hd
    have hsplit : pySplit l = (c :: cs.takeWhile (fun x => !isSpace x)) ::
        pySplit (cs.dropWhile (fun x => !isSpace x)) := by
      rw [← pySplit_dropWhile_space, hd, pySplit_eq_cons cs c hc]
    have hdw : (c :: cs).dropWhile (fun x => !isSpace x) =
        cs.dropWhile (fun x => !isSpace x) :=
      List.dropWhile_cons_of_pos (by simp [hc])
    have htw : (c :: cs).takeWhile (fun x => !isSpace x) =
        c :: cs.takeWhile (fun x => !isSpace x) :=
      List.takeWhile_cons_of_pos (by simp [hc])
    by_cases hr : (cs.dropWhile (fun x => !isSpace x)).dropWhile isSpace = []
    · have htail : pySplit (cs.dropWhile (fun x => !isSpace x)) = [] := by
        rw [← pySplit_dropWhile_space, hr]
        rfl
      simp [parseFull, pySplit1, hd, hdw, htw, hr, hsplit, htail]
    · simp only [parseFull, pySplit1, hd, hdw, htw, hsplit]
      simp only [List.isEmpty_cons, List.isEmpty_eq_true, hr]
      simp only [if_false, Bool.false_eq_true, List.length_cons, List.length_nil]
      norm_num
      rw [← pySplit_dropWhile_space (cs.dropWhile (fun x => !isSpace x))]

theorem parseFull_ge_two (l : List Char) (n : Nat) (h : 2 ≤ n) :
    parseFull l n = Except.ok [] := by
  have hle := pySplit1_length_le l
  simp only [parseFull]
  rw [if_pos (by omega)]

theorem parse_plain (s : String) :
    parse_command_args [MessageComponent.Plain s] 1 =
      Except.ok (((pySplit s.toList).tail).map List.asString) := by
  have h0 : parse_command_args [MessageComponent.Plain s] 1 =
      (parseFull (pystrip s.toList) 1).map (List.map List.asString) := rfl
  rw [h0, parseFull_one, pySplit_pystrip]
  rfl

theorem parse_min_two (comps : List MessageComponent) (n : Nat) (h : 2 ≤ n) :
    parse_command_args comps n = Except.ok [] := by
  simp only [parse_command_args]
  by_cases he : (plainTexts comps).isEmpty
  · simp [he]
  · simp [he, parseFull_ge_two _ n h, Except.map]

theorem pySplit_join_tokens :
    ∀ (toks : List String), (∀ t ∈ toks, tokenStr t) →
      pySplit (pyJoin " " toks).toList = toks.map String.toList := by
  intro toks
  induction toks with
  | nil => intro _; rfl
  | cons t ts ih =>
    intro h
    have ht := h t (List.mem_cons_self t ts)
    match ts with
    | [] =>
      show pySplit t.toList = [t.toList]
      exact pySplit_token t.toList ht.1 ht.2
    | t2 :: ts' =>
      have hts : ∀ x ∈ t2 :: ts', tokenStr x := fun x hx => h x (List.mem_cons_of_mem t hx)
      have hj : (pyJoin " " (t :: t2 :: ts')).toList
          = t.toList ++ ' ' :: (pyJoin " " (t2 :: ts')).toList := by
        show (t ++ " " ++ pyJoin " " (t2 :: ts')).toList = _
        rw [toList_append, toList_append, List.append_assoc]
        rfl
      rw [hj, pySplit_token_space t.toList ' ' _ ht.1 ht.2 (by decide),
        pySplit_space_cons _ (by decide), ih hts]
      rfl

theorem pystrip_of_token (k : List Char) (h : ∀ c ∈ k, isSpace c = false) :
    pystrip k = k := by
  unfold pystrip
  rw [dropWhile_of_all_neg k h,
    dropWhile_of_all_neg k.reverse (fun c hc => h c (List.mem_reverse.mp hc))]
  exact List.reverse_reverse k

theorem parse_plain_tokens (s : String) (toks : List String)
    (hs : s.toList = (pyJoin " " toks).toList) (h : ∀ t ∈ toks, tokenStr t) :
    parse_command_args [MessageComponent.Plain s] 1 = Except.ok toks.tail := by
  rw [parse_plain, hs, pySplit_join_tokens toks h]
  cases toks with
  | nil => rfl
  | cons t ts =>
    simp only [List.map_cons, List.tail_cons]
    congr 1
    have hid : List.asString ∘ String.toList = id := funext asString_toList
    rw [List.map_map, hid, List.map_id]

/-! ## Envelope-handling lemmas -/

theorem str_ext {a b : String} (h : a.toList = b.toList) : a = b := by
  cases a with
  | mk d1 =>
    cases b with
    | mk d2 =>
      simp only [String.toList] at h
      rw [h]

theorem pyJoin_append_ne (sep x : String) (hx : x ≠ "") :
    ∀ (xs : List String), pyJoin sep (xs ++ [x]) ≠ "" := by
  intro xs
  induction xs with
  | nil => simpa [pyJoin] using hx
  | cons a as ih =>
    cases h : as ++ [x] with
    | nil => exact absurd h (by simp)
    | cons b t =>
      rw [List.cons_append, h]
      show a ++ sep ++ pyJoin sep (b :: t) ≠ ""
      have h2 : pyJoin sep (b :: t) ≠ "" := by rw [← h]; exact ih
      intro hc
      have h4 := congrArg String.toList hc
      have h0 : ("" : String).toList = [] := rfl
      simp only [toList_append, h0, List.append_eq_nil] at h4
      exact h2 ((toList_eq_nil_iff _).mp h4.2)

theorem send_api_result_error_envelope (fetch : String → FetchOutcome) (ep : String)
    (ps : List (String × Json)) (handler : Json → Except String Reply)
    (kvs : List (String × Json)) (hcode : isCode200 kvs = false)
    (henv : safe_fetch_json (fetch (build_url ep ps)) = Json.obj kvs) :
    send_api_result fetch ep ps handler =
      Except.ok (Reply.text ("\n错误：" ++ pyStr (dictGetD kvs "msg" (Json.str "未知错误")))) := by
  simp only [send_api_result, henv, hcode]
  simp

/-- Claim C4 (amended) — On every non-200 envelope the reply is the uniform error string
(but it starts with a newline, which the claim's "exactly" misses). -/
theorem c4_error_rendering :
    ∀ (endpoint : String) (params : List (String × Json))
      (handler : Json → Except String Reply) (kvs : List (String × Json)),
      isCode200 kvs = false →
      (send_api_result (fun _ => FetchOutcome.success (Json.obj kvs)) endpoint params handler =
        Except.ok (Reply.text ("\n错误：" ++ pyStr (dictGetD kvs "msg" (Json.str "未知错误"))))) ∧
      (dictGet kvs "msg" = none →
        send_api_result (fun _ => FetchOutcome.success (Json.obj kvs)) endpoint params handler =
          Except.ok (Reply.text "\n错误：未知错误")) := by
  intro endpoint params handler kvs hcode
  have h1 := send_api_result_error_envelope
    (fun _ => FetchOutcome.success (Json.obj kvs)) endpoint params handler kvs hcode rfl
  refine ⟨h1, fun hm => ?_⟩
  rw [h1]
  simp only [dictGetD, hm]
  rfl

/-- Counterexample for C4 — the failure reply is `"\n错误：not found"`, not
exactly `"错误：not found"`: a newline precedes the error prefix. -/
theorem c4_counterexample :
    send_api_result (fun _ => FetchOutcome.success
        (Json.obj [("code", Json.num 404), ("msg", Json.str "not found")]))
      "ping" [("url", Json.str "x")] ping_success
      = Except.ok (Reply.text "\n错误：not found") ∧
    ("\n错误：not found" : String) ≠ "错误：not found" :=
  ⟨rfl, by decide⟩

/-- Witness for C4. -/
theorem c4_error_rendering_witness :
    (send_api_result (fun _ => FetchOutcome.success
        (Json.obj [("code", Json.num 404), ("msg", Json.str "not found")]))
      "ping" [("url", Json.str "x")] ping_success =
      Except.ok (Reply.text ("\n错误：" ++ pyStr (dictGetD
        [("code", Json.num 404), ("msg", Json.str "not found")] "msg"
        (Json.str "未知错误"))))) ∧
    (send_api_result (fun _ => FetchOutcome.success (Json.obj [("code", Json.num 404)]))
      "ping" [("url", Json.str "x")] ping_success =
      Except.ok (Reply.text "\n错误：未知错误")) :=
  ⟨(c4_error_rendering "ping" [("url", Json.str "x")] ping_success
      [("code", Json.num 404), ("msg", Json.str "not found")] rfl).1,
   (c4_error_rendering "ping" [("url", Json.str "x")] ping_success
      [("code", Json.num 404)] rfl).2 rfl⟩

/-- Claim C5 (amended) — the function `safe_fetch_json` never raises: transport errors map to the
"service unavailable" envelope, all other faults to the "internal error"
envelope, and a successful fetch returns the parsed JSON body unchanged
(a dict exactly when the remote body was a JSON object). -/
theorem c5_safe_fetch :
    safe_fetch_json FetchOutcome.clientError =
      Json.obj [("code", Json.num 500), ("msg", Json.str "服务暂时不可用")] ∧
    safe_fetch_json FetchOutcome.otherError =
      Json.obj [("code", Json.num 500), ("msg", Json.str "内部服务器错误")] ∧
    ∀ (body : Json), safe_fetch_json (FetchOutcome.success body) = body :=
  ⟨rfl, rfl, fun _ => rfl⟩

/-- Counterexample for C5 — a 2xx response whose body is valid JSON but not
an object (here `[]`) is returned as-is, so `safe_fetch_json` does not
always return a dict. -/
theorem c5_counterexample :
    safe_fetch_json (FetchOutcome.success (Json.arr [])) = Json.arr [] ∧
    isDict (safe_fetch_json (FetchOutcome.success (Json.arr []))) = false :=
  ⟨rfl, rfl⟩

/-- Claim C2 (amended) — For `min_args = 1` (the only value any caller passes),
`parse_command_args` returns exactly the tokens after the command keyword
(empty when there are none); but for every `min_args ≥ 2` it returns `[]`
unconditionally, because `split(maxsplit=1)` yields at most two parts. -/
theorem c2_parser_contract :
    (∀ (s : String), parse_command_args [MessageComponent.Plain s] 1 =
      Except.ok (((pySplit s.toList).tail).map List.asString)) ∧
    (∀ (comps : List MessageComponent) (n : Nat), 2 ≤ n →
      parse_command_args comps n = Except.ok []) :=
  ⟨parse_plain, parse_min_two⟩

/-- Counterexample for C2 — with `min_args = 2` and two argument tokens
present, the claim demands `["a", "b"]` but the code returns `[]`. -/
theorem c2_counterexample :
    parse_command_args [MessageComponent.Plain "cmd a b"] 2 = Except.ok [] ∧
    (pySplit (String.toList "cmd a b")).tail =
      [String.toList "a", String.toList "b"] ∧
    ([] : List String) ≠ ["a", "b"] :=
  ⟨rfl, rfl, by decide⟩

/-- Witness for C2. -/
theorem c2_parser_contract_witness :
    parse_command_args [MessageComponent.Plain "tcping bing.com 443"] 1 =
      Except.ok ["bing.com", "443"] ∧
    parse_command_args [MessageComponent.Plain "cmd a b"] 2 = Except.ok [] :=
  ⟨(c2_parser_contract.1 "tcping bing.com 443").trans (by rfl),
   c2_parser_contract.2 [MessageComponent.Plain "cmd a b"] 2 (by decide)⟩

/-- Claim C8 — Parsing is idempotent: when a message parses to a non-empty
argument list, re-parsing the command keyword followed by the
space-joined argument list yields the same list. -/
theorem c8_parse_idempotent (s : String) (args : List String)
    (hp : parse_command_args [MessageComponent.Plain s] 1 = Except.ok args)
    (hne : args ≠ []) :
    parse_command_args [MessageComponent.Plain
      (((pySplit s.toList).headD []).asString ++ " " ++ pyJoin " " args)] 1 =
      Except.ok args := by
  rw [parse_plain] at hp
  have hargs : args = ((pySplit s.toList).tail).map List.asString :=
    (Except.ok.inj hp).symm
  have hall := pySplit_sound s.toList
  cases hsp : pySplit s.toList with
  | nil =>
    rw [hsp] at hargs
    exact absurd hargs hne
  | cons k rest =>
    rw [hsp] at hargs hall
    cases rest with
    | nil => exact absurd hargs hne
    | cons r2 rs =>
      simp only [List.tail_cons] at hargs
      have htoks : ∀ x ∈ (k.asString :: args), tokenStr x := by
        intro x hx
        rcases List.mem_cons.mp hx with rfl | hmem
        · have hk := hall k (List.mem_cons_self k (r2 :: rs))
          exact ⟨by rw [toList_asString]; exact hk.1,
                 by intro c hc; rw [toList_asString] at hc; exact hk.2 c hc⟩
        · rw [hargs] at hmem
          obtain ⟨u, hu, rfl⟩ := List.mem_map.mp hmem
          have hu2 := hall u (List.mem_cons_of_mem k hu)
          exact ⟨by rw [toList_asString]; exact hu2.1,
                 by intro c hc; rw [toList_asString] at hc; exact hu2.2 c hc⟩
      have hs2 : (((pySplit s.toList).headD []).asString ++ " " ++ pyJoin " " args).toList
          = (pyJoin " " (k.asString :: args)).toList := by
        rw [hsp]
        cases args with
        | nil => exact absurd rfl hne
        | cons a as => rfl
      have hmain := parse_plain_tokens _ (k.asString :: args) hs2 htoks
      rw [hsp] at hmain
      simpa using hmain

/-- Witness for C8. -/
theorem c8_parse_idempotent_witness :
    parse_command_args [MessageComponent.Plain
      (((pySplit (String.toList "ping bing.com 443")).headD []).asString ++ " " ++
        pyJoin " " ["bing.com", "443"])] 1 = Except.ok ["bing.com", "443"] :=
  c8_parse_idempotent "ping bing.com 443" ["bing.com", "443"] (by rfl) (by decide)

/-- Claim C9 — The parser uses only `Plain` components; each is stripped and
the results are concatenated with no separator, so a keyword and an
argument in two separate `Plain` components fuse into a single token
(yielding no arguments), and an event without `Plain` components parses
to the empty list. -/
theorem c9_plain_concatenation :
    (∀ (comps : List MessageComponent) (n : Nat),
      parse_command_args comps n = parse_command_args (comps.filter isPlainComp) n) ∧
    (∀ (k t : List Char), k ≠ [] → (∀ c ∈ k, isSpace c = false) →
      t ≠ [] → (∀ c ∈ t, isSpace c = false) →
      pySplit (k ++ t) = [k ++ t] ∧
      parse_command_args [MessageComponent.Plain k.asString,
        MessageComponent.Plain t.asString] 1 = Except.ok []) ∧
    (∀ (comps : List MessageComponent) (n : Nat),
      (∀ c ∈ comps, isPlainComp c = false) → parse_command_args comps n = Except.ok []) := by
  refine ⟨?_, ?_, ?_⟩
  · have hpt : ∀ (comps : List MessageComponent),
        plainTexts (comps.filter isPlainComp) = plainTexts comps := by
      intro comps
      induction comps with
      | nil => rfl
      | cons c cs ih =>
        cases c with
        | Plain t =>
          rw [List.filter_cons_of_pos (by rfl)]
          show pystripStr t :: plainTexts (cs.filter isPlainComp) =
            pystripStr t :: plainTexts cs
          rw [ih]
        | other =>
          rw [List.filter_cons_of_neg (by simp [isPlainComp])]
          exact ih
    intro comps n
    simp only [parse_command_args, hpt]
  · intro k t hk0 hk ht0 htc
    have hkt0 : k ++ t ≠ [] := by simp [hk0]
    have hktall : ∀ c ∈ k ++ t, isSpace c = false := by
      intro c hc
      rcases List.mem_append.mp hc with h | h
      · exact hk c h
      · exact htc c h
    have h1 : pySplit (k ++ t) = [k ++ t] := pySplit_token _ hkt0 hktall
    refine ⟨h1, ?_⟩
    have hsk : pystripStr k.asString = k.asString := by
      show (pystrip (k.asString).toList).asString = k.asString
      rw [toList_asString, pystrip_of_token k hk]
    have hst : pystripStr t.asString = t.asString := by
      show (pystrip (t.asString).toList).asString = t.asString
      rw [toList_asString, pystrip_of_token t htc]
    have h2 : parse_command_args [MessageComponent.Plain k.asString,
        MessageComponent.Plain t.asString] 1 =
        (parseFull ((String.join [pystripStr k.asString,
          pystripStr t.asString]).toList) 1).map (List.map List.asString) := rfl
    rw [h2, hsk, hst]
    have hjoin : (String.join [k.asString, t.asString]).toList = k ++ t := rfl
    rw [hjoin, parseFull_one, h1]
    rfl
  · have hempty : ∀ (l : List MessageComponent),
        (∀ c ∈ l, isPlainComp c = false) → plainTexts l = [] := by
      intro l
      induction l with
      | nil => intro _; rfl
      | cons c cs ih =>
        intro h
        cases c with
        | Plain t =>
          have := h (MessageComponent.Plain t) (List.mem_cons_self _ cs)
          simp [isPlainComp] at this
        | other =>
          show plainTexts cs = []
          exact ih fun x hx => h x (List.mem_cons_of_mem _ hx)
    intro comps n h
    simp [parse_command_args, hempty comps h]

/-- Witness for C9. -/
theorem c9_plain_concatenation_witness :
    parse_command_args [MessageComponent.Plain "sitehelp", MessageComponent.other] 1 =
      parse_command_args ([MessageComponent.Plain "sitehelp",
        MessageComponent.other].filter isPlainComp) 1 ∧
    (pySplit (String.toList "tcping" ++ String.toList "bing.com") =
      [String.toList "tcping" ++ String.toList "bing.com"] ∧
      parse_command_args [MessageComponent.Plain (String.toList "tcping").asString,
        MessageComponent.Plain (String.toList "bing.com").asString] 1 = Except.ok []) ∧
    parse_command_args [MessageComponent.other] 1 = Except.ok [] :=
  ⟨c9_plain_concatenation.1 [MessageComponent.Plain "sitehelp", MessageComponent.other] 1,
   c9_plain_concatenation.2.1 (String.toList "tcping") (String.toList "bing.com")
     (by decide) (by decide) (by decide) (by decide),
   c9_plain_concatenation.2.2 [MessageComponent.other] 1 (by decide)⟩

/-- Claim C6 — A present but non-numeric tcping port argument is rejected
locally with the usage hint; the reply is the same for every transport
function, so no API request is consulted. -/
theorem c6_local_port_validation :
    ∀ (host port : String) (fetch : String → FetchOutcome),
      tokenStr host → tokenStr port → pyIntParse port = none →
      check_tcping [MessageComponent.Plain ("tcping " ++ host ++ " " ++ port)] fetch =
        Except.ok (Reply.text "端口号必须是数字!\n示例: /tcping bing.com 443") := by
  intro host port fetch hh hp hint
  have htoks : ∀ x ∈ ["tcping", host, port], tokenStr x := by
    intro x hx
    rcases List.mem_cons.mp hx with rfl | hx2
    · exact ⟨by decide, by decide⟩
    · rcases List.mem_cons.mp hx2 with rfl | hx3
      · exact hh
      · rcases List.mem_cons.mp hx3 with rfl | hx4
        · exact hp
        · simp at hx4
  have hparse : parse_command_args
      [MessageComponent.Plain ("tcping " ++ host ++ " " ++ port)] 1 =
      Except.ok [host, port] :=
    parse_plain_tokens ("tcping " ++ host ++ " " ++ port) ["tcping", host, port] rfl htoks
  simp only [check_tcping, hparse]
  simp [hint]

/-- Witness for C6. -/
theorem c6_local_port_validation_witness :
    check_tcping [MessageComponent.Plain ("tcping " ++ "bing.com" ++ " " ++ "abc")]
      (fun _ => FetchOutcome.clientError) =
      Except.ok (Reply.text "端口号必须是数字!\n示例: /tcping bing.com 443") :=
  c6_local_port_validation "bing.com" "abc" (fun _ => FetchOutcome.clientError)
    ⟨by decide, by decide⟩ ⟨by decide, by decide⟩ rfl

/-- Claim C10 — The request URL is the base URL, `/`, the endpoint, `?`, and
`k=v` pairs joined by `&` in dict order, with the argument token spliced
in verbatim: no percent-encoding, so `&` and `=` inside a token pass
through into the query string unchanged. -/
theorem c10_url_verbatim :
    ∀ (t : String) (fetch : String → FetchOutcome), tokenStr t →
      check_ping [MessageComponent.Plain ("ping " ++ t)] fetch =
        send_api_result fetch "ping" [("url", Json.str t)] ping_success ∧
      build_url "ping" [("url", Json.str t)] = "https://v2.xxapi.cn/api/ping?url=" ++ t := by
  intro t fetch ht
  have htoks : ∀ x ∈ ["ping", t], tokenStr x := by
    intro x hx
    rcases List.mem_cons.mp hx with rfl | hx2
    · exact ⟨by decide, by decide⟩
    · rcases List.mem_cons.mp hx2 with rfl | hx3
      · exact ht
      · simp at hx3
  have hparse : parse_command_args [MessageComponent.Plain ("ping " ++ t)] 1 =
      Except.ok [t] :=
    parse_plain_tokens ("ping " ++ t) ["ping", t] rfl htoks
  constructor
  · simp only [check_ping, hparse]
    rfl
  · rfl

/-- Witness for C10 — the token `a&b=c` reaches the query string unescaped. -/
theorem c10_url_verbatim_witness :
    check_ping [MessageComponent.Plain ("ping " ++ "a&b=c")]
      (fun _ => FetchOutcome.clientError) =
      send_api_result (fun _ => FetchOutcome.clientError) "ping"
        [("url", Json.str "a&b=c")] ping_success ∧
    build_url "ping" [("url", Json.str "a&b=c")] =
      "https://v2.xxapi.cn/api/ping?url=" ++ "a&b=c" :=
  c10_url_verbatim "a&b=c" (fun _ => FetchOutcome.clientError) ⟨by decide, by decide⟩

/-! ## Whois and port-scan formatting -/

theorem extractStrs_map_str (l : List String) :
    extractStrs (l.map Json.str) = Except.ok l := by
  induction l with
  | nil => rfl
  | cons a as ih =>
    show (extractStrs (as.map Json.str)).map (fun rest => a :: rest) = Except.ok (a :: as)
    rw [ih]
    rfl

theorem pyJoinJson_strs (sep : String) (l : List String) :
    pyJoinJson sep (Json.arr (l.map Json.str)) = Except.ok (pyJoin sep l) := by
  show (extractStrs (l.map Json.str)).map (pyJoin sep) = Except.ok (pyJoin sep l)
  rw [extractStrs_map_str]
  rfl

/-- Claim C7 — The rendered DNS field of a whois success reply is exactly the
first two DNS entries joined by `", "`; a list of fewer than two entries
is rendered in full (`take 2` is the identity there). -/
theorem c7_whois_dns (dn sr rg rt et : Json) (dns : List String) :
    query_whois [MessageComponent.Plain "whois bing.com"]
      (fun _ => FetchOutcome.success (Json.obj
        [("code", Json.num 200),
         ("data", Json.obj
           [("Domain Name", dn), ("Sponsoring Registrar", sr), ("Registrant", rg),
            ("DNS Serve", Json.arr (dns.map Json.str)),
            ("Registration Time", rt), ("Expiration Time", et)])])) =
      Except.ok (Reply.text ("\n域名：" ++ pyStr dn ++ "\n注册商：" ++ pyStr sr ++
        "\n注册人：" ++ pyStr rg ++ "\nDNS：" ++ pyJoin ", " (dns.take 2) ++
        "\n有效期：" ++ pyStr rt ++ " 至 " ++ pyStr et)) ∧
    (dns.length ≤ 2 → dns.take 2 = dns) := by
  constructor
  · have hstep : query_whois [MessageComponent.Plain "whois bing.com"]
        (fun _ => FetchOutcome.success (Json.obj
          [("code", Json.num 200),
           ("data", Json.obj
             [("Domain Name", dn), ("Sponsoring Registrar", sr), ("Registrant", rg),
              ("DNS Serve", Json.arr (dns.map Json.str)),
              ("Registration Time", rt), ("Expiration Time", et)])])) =
        (pyJoinJson ", " (Json.arr ((dns.map Json.str).take 2))).bind
          (fun dnsJoined => Except.ok (Reply.text ("\n域名：" ++ pyStr dn ++
            "\n注册商：" ++ pyStr sr ++ "\n注册人：" ++ pyStr rg ++
            "\nDNS：" ++ dnsJoined ++
            "\n有效期：" ++ pyStr rt ++ " 至 " ++ pyStr et))) := rfl
    rw [hstep, ← List.map_take, pyJoinJson_strs]
    rfl
  · exact fun h => List.take_of_length_le h

/-- Witness for C7. -/
theorem c7_whois_dns_witness :
    query_whois [MessageComponent.Plain "whois bing.com"]
      (fun _ => FetchOutcome.success (Json.obj
        [("code", Json.num 200),
         ("data", Json.obj
           [("Domain Name", Json.str "bing.com"),
            ("Sponsoring Registrar", Json.str "MarkMonitor"),
            ("Registrant", Json.str "Microsoft"),
            ("DNS Serve", Json.arr (["ns1", "ns2", "ns3", "ns4"].map Json.str)),
            ("Registration Time", Json.str "1996-01-28"),
            ("Expiration Time", Json.str "2026-01-29")])])) =
      Except.ok (Reply.text ("\n域名：" ++ pyStr (Json.str "bing.com") ++
        "\n注册商：" ++ pyStr (Json.str "MarkMonitor") ++
        "\n注册人：" ++ pyStr (Json.str "Microsoft") ++
        "\nDNS：" ++ pyJoin ", " (["ns1", "ns2", "ns3", "ns4"].take 2) ++
        "\n有效期：" ++ pyStr (Json.str "1996-01-28") ++ " 至 " ++
        pyStr (Json.str "2026-01-29"))) ∧
    (["ns1"] : List String).take 2 = ["ns1"] :=
  ⟨(c7_whois_dns (Json.str "bing.com") (Json.str "MarkMonitor") (Json.str "Microsoft")
      (Json.str "1996-01-28") (Json.str "2026-01-29") ["ns1", "ns2", "ns3", "ns4"]).1,
   (c7_whois_dns Json.null Json.null Json.null Json.null Json.null ["ns1"]).2 (by decide)⟩

/-- Claim C3 (amended) — Port-scan rendering: each status list longer than 20 entries is
rendered as its first 20 followed by the `"..."` marker; a list of at
most 20 entries whose joined rendering is non-empty is rendered in full
with no marker; a list whose joined rendering is empty — in particular
the empty list — renders the placeholder `无`. -/
theorem c3_port_truncation :
    (∀ (port_data : List (String × Json)),
      format_port_scan port_data =
        "开放端口：" ++ render_port_list
            ((port_data.filter fun kv => pyTruthy kv.2).map Prod.fst) ++
          "\n未开放端口：" ++ render_port_list
            ((port_data.filter fun kv => !pyTruthy kv.2).map Prod.fst)) ∧
    (∀ (l : List String), 20 < l.length →
      render_port_list l = pyJoin " | " (l.take 20 ++ ["..."])) ∧
    (∀ (l : List String), l.length ≤ 20 → pyJoin " | " l ≠ "" →
      render_port_list l = pyJoin " | " l) ∧
    render_port_list [] = "无" := by
  refine ⟨fun _ => rfl, ?_, ?_, rfl⟩
  · intro l hl
    have hne : pyJoin " | " (l.take 20 ++ ["..."]) ≠ "" :=
      pyJoin_append_ne " | " "..." (by decide) (l.take 20)
    simp only [render_port_list, truncate, if_pos hl, pyOrStr, if_neg hne]
  · intro l hlen hne
    have hnot : ¬ 20 < l.length := by omega
    have ht : truncate l = l := by simp only [truncate, if_neg hnot]
    simp only [render_port_list, ht, pyOrStr, if_neg hne]

/-- Counterexample for C3 — the one-entry list whose only label is the empty
string joins to `""`, so it is rendered as the placeholder `无`, not "in
full"; truthiness, not the label, decides the partition. -/
theorem c3_counterexample :
    format_port_scan [("", Json.bool true)] = "开放端口：无\n未开放端口：无" ∧
    render_port_list [""] = "无" ∧
    pyJoin " | " [""] = "" ∧
    ("无" : String) ≠ "" :=
  ⟨rfl, rfl, rfl, by decide⟩

/-- Witness for C3. -/
theorem c3_port_truncation_witness :
    render_port_list ["p1", "p2", "p3", "p4", "p5", "p6", "p7", "p8", "p9", "p10",
      "p11", "p12", "p13", "p14", "p15", "p16", "p17", "p18", "p19", "p20", "p21"] =
      pyJoin " | " ((["p1", "p2", "p3", "p4", "p5", "p6", "p7", "p8", "p9", "p10",
        "p11", "p12", "p13", "p14", "p15", "p16", "p17", "p18", "p19", "p20",
        "p21"].take 20) ++ ["..."]) ∧
    render_port_list ["80"] = pyJoin " | " ["80"] :=
  ⟨c3_port_truncation.2.1 _ (by decide),
   c3_port_truncation.2.2.1 ["80"] (by decide) (by decide)⟩

/-! ## Handler safety -/

theorem send_api_result_error_reply (fetch : String → FetchOutcome) (ep : String)
    (ps : List (String × Json)) (handler : Json → Except String Reply)
    (h : isErrorEnvelope (safe_fetch_json (fetch (build_url ep ps))) = true) :
    isTextReply (send_api_result fetch ep ps handler) = true := by
  simp only [send_api_result]
  cases hj : safe_fetch_json (fetch (build_url ep ps)) with
  | obj kvs =>
    rw [hj] at h
    simp only [isErrorEnvelope, Bool.not_eq_true'] at h
    simp [h, isTextReply]
  | null => rw [hj] at h; simp [isErrorEnvelope] at h
  | bool b => rw [hj] at h; simp [isErrorEnvelope] at h
  | num n => rw [hj] at h; simp [isErrorEnvelope] at h
  | str s => rw [hj] at h; simp [isErrorEnvelope] at h
  | arr xs => rw [hj] at h; simp [isErrorEnvelope] at h

/-- Claim C1 (amended) — When every fetch outcome yields a non-success envelope (any
transport failure, and any API failure code), each command handler
terminates in a plain text reply and raises nothing.  (The claim's
further case — a well-formed `code == 200` envelope whose `data` is
missing — instead raises, see the counterexample.) -/
theorem c1_handlers_reply (fetch : String → FetchOutcome)
    (h : ∀ u, isErrorEnvelope (safe_fetch_json (fetch u)) = true) :
    isTextReply (check_tcping [MessageComponent.Plain "tcping bing.com 443"] fetch) = true ∧
    isTextReply (check_ping [MessageComponent.Plain "ping bing.com"] fetch) = true ∧
    isTextReply (check_latency
      [MessageComponent.Plain "siteno https://www.bing.com"] fetch) = true ∧
    isTextReply (query_whois [MessageComponent.Plain "whois bing.com"] fetch) = true ∧
    isTextReply (scan_ports [MessageComponent.Plain "port 8.8.8.8"] fetch) = true ∧
    isTextReply (capture_site
      [MessageComponent.Plain "site https://www.bing.com"] fetch) = true := by
  refine ⟨?_, ?_, ?_, ?_, ?_, ?_⟩
  · have hstep : check_tcping [MessageComponent.Plain "tcping bing.com 443"] fetch =
        send_api_result fetch "tcping"
          [("address", Json.str "bing.com"), ("port", Json.num 443)] tcping_success := rfl
    rw [hstep]
    exact send_api_result_error_reply fetch _ _ _ (h _)
  · have hstep : check_ping [MessageComponent.Plain "ping bing.com"] fetch =
        send_api_result fetch "ping" [("url", Json.str "bing.com")] ping_success := rfl
    rw [hstep]
    exact send_api_result_error_reply fetch _ _ _ (h _)
  · have hstep : check_latency [MessageComponent.Plain "siteno https://www.bing.com"] fetch =
        send_api_result fetch "speed"
          [("url", Json.str "https://www.bing.com")] speed_success := rfl
    rw [hstep]
    exact send_api_result_error_reply fetch _ _ _ (h _)
  · have hstep : query_whois [MessageComponent.Plain "whois bing.com"] fetch =
        send_api_result fetch "whois" [("domain", Json.str "bing.com")] whois_success := rfl
    rw [hstep]
    exact send_api_result_error_reply fetch _ _ _ (h _)
  · have hstep : scan_ports [MessageComponent.Plain "port 8.8.8.8"] fetch =
        send_api_result fetch "portscan"
          [("address", Json.str "8.8.8.8")] portscan_success := rfl
    rw [hstep]
    exact send_api_result_error_reply fetch _ _ _ (h _)
  · have hstep : capture_site [MessageComponent.Plain "site https://www.bing.com"] fetch =
        send_api_result fetch "screenshot"
          [("url", Json.str "https://www.bing.com")] screenshot_success := rfl
    rw [hstep]
    exact send_api_result_error_reply fetch _ _ _ (h _)

/-- Counterexample for C1 — a well-formed envelope with `code == 200` and no
`data` field makes the tcping success formatter raise a `KeyError`, which
propagates out of the handler instead of becoming a reply. -/
theorem c1_counterexample :
    check_tcping [MessageComponent.Plain "tcping bing.com"]
      (fun _ => FetchOutcome.success (Json.obj [("code", Json.num 200)])) =
      Except.error "KeyError" ∧
    isTextReply (check_tcping [MessageComponent.Plain "tcping bing.com"]
      (fun _ => FetchOutcome.success (Json.obj [("code", Json.num 200)]))) = false :=
  ⟨rfl, rfl⟩

/-- Witness for C1. -/
theorem c1_handlers_reply_witness :
    isTextReply (check_tcping [MessageComponent.Plain "tcping bing.com 443"]
      (fun _ => FetchOutcome.clientError)) = true ∧
    isTextReply (check_ping [MessageComponent.Plain "ping bing.com"]
      (fun _ => FetchOutcome.clientError)) = true ∧
    isTextReply (check_latency [MessageComponent.Plain "siteno https://www.bing.com"]
      (fun _ => FetchOutcome.clientError)) = true ∧
    isTextReply (query_whois [MessageComponent.Plain "whois bing.com"]
      (fun _ => FetchOutcome.clientError)) = true ∧
    isTextReply (scan_ports [MessageComponent.Plain "port 8.8.8.8"]
      (fun _ => FetchOutcome.clientError)) = true ∧
    isTextReply (capture_site [MessageComponent.Plain "site https://www.bing.com"]
      (fun _ => FetchOutcome.clientError)) = true :=
  c1_handlers_reply (fun _ => FetchOutcome.clientError) (fun _ => rfl)
